import Mathlib

/-!
Verification development for the crypto-valuation repository.

The repository has five Python source files:
* get_schema.py        : recursive JSON schema inference (infer_schema)
* schema_analyzer.py   : per-path type-name profiling (analyze_schema)
* main.py              : DuckDB pipeline that flattens the protocols / fees /
                         revenue payloads (explode the chains array), and inner
                         joins them on (name, category, chain)
* analysis/efficiency.py : per-timeframe fees/tvl ranking (top 5)
* analysis/valuation.py  : per-timeframe fees/mcap and revenue/mcap rankings

The Python data model and the DuckDB SQL are embedded shallowly below; all
numeric values are modelled as rationals.
-/

/-! ### Python values

Model of the Python values produced by response.json(): dict (with insertion
order), list, str, int, float, bool and None.  Python keeps int and float
apart, and bool is a subclass of int (isinstance(True, int) is True), which
matters for get_schema.py's isinstance chain.
-/

inductive PyVal where
  | none
  | bool (b : Bool)
  | int (n : ℤ)
  | float (q : ℚ)
  | str (s : String)
  | list (xs : List PyVal)
  | dict (kvs : List (String × PyVal))

/-- Python's type(value).__name__ for each modelled value. -/
def PyVal.typeName : PyVal → String
  | .none => "NoneType"
  | .bool _ => "bool"
  | .int _ => "int"
  | .float _ => "float"
  | .str _ => "str"
  | .list _ => "list"
  | .dict _ => "dict"

/-- isinstance(v, str) -/
def PyVal.isinstance_str : PyVal → Bool
  | .str _ => true
  | _ => false

/-- isinstance(v, int).  Python's bool is a subclass of int, so booleans
satisfy this check as well. -/
def PyVal.isinstance_int : PyVal → Bool
  | .int _ => true
  | .bool _ => true
  | _ => false

/-- isinstance(v, float) -/
def PyVal.isinstance_float : PyVal → Bool
  | .float _ => true
  | _ => false

/-- isinstance(v, bool) -/
def PyVal.isinstance_bool : PyVal → Bool
  | .bool _ => true
  | _ => false

/-- v is None -/
def PyVal.is_none : PyVal → Bool
  | .none => true
  | _ => false

/-! ### get_schema.py: infer_schema -/

/-- The descriptors returned by get_schema.py's infer_schema.  An object
carries its properties mapping in key order; an array carries the schema of
its first element, or Option.none for the empty placeholder dict used when
the list is empty. -/
inductive SchemaDesc where
  | object (properties : List (String × SchemaDesc))
  | array (items : Option SchemaDesc)
  | string
  | integer
  | number
  | boolean
  | null
  | unknown
deriving Repr

mutual

/-- Embedding of get_schema.py's infer_schema.  The branch order follows the
source exactly: dict, list, str, int, float, bool, None, else unknown.
Because isinstance(True, int) holds in Python, boolean inputs are caught by
the int branch and the bool branch below it is unreachable. -/
def infer_schema (data : PyVal) : SchemaDesc :=
  match data with
  | .dict kvs => .object (inferProps kvs)
  | .list [] => .array Option.none
  | .list (x :: _) => .array (some (infer_schema x))
  | v =>
    if v.isinstance_str then .string
    else if v.isinstance_int then .integer
    else if v.isinstance_float then .number
    else if v.isinstance_bool then .boolean
    else if v.is_none then .null
    else .unknown

/-- The properties loop of infer_schema over a dict's items. -/
def inferProps (kvs : List (String × PyVal)) : List (String × SchemaDesc) :=
  match kvs with
  | [] => []
  | (k, v) :: rest => (k, infer_schema v) :: inferProps rest

end

/-! ### schema_analyzer.py: analyze_schema -/

/-- The defaultdict(set) result of analyze_schema, modelled as an association
list from dotted field path to the list of observed type names, both kept in
first-insertion order (Python dict preserves insertion order; the set is
modelled as a duplicate-free list). -/
abbrev Schema := List (String × List String)

/-- schema[path].add(typeName): insert a type name into the set at a path,
creating the entry if needed. -/
def addType : Schema → String → String → Schema
  | [], p, t => [(p, [t])]
  | (q, ts) :: rest, p, t =>
    if q = p then (q, if t ∈ ts then ts else ts ++ [t]) :: rest
    else (q, ts) :: addType rest p t

/-- schema[k].update(v): add every type name of a set. -/
def addTypeSet (s : Schema) (p : String) (ts : List String) : Schema :=
  ts.foldl (fun s t => addType s p t) s

/-- for k, v in nested.items(): schema[k].update(v) -/
def mergeSchema (s : Schema) (nested : Schema) : Schema :=
  nested.foldl (fun s pt => addTypeSet s pt.1 pt.2) s

mutual

/-- Embedding of schema_analyzer.py's analyze_schema.  For a dict it walks
the items recording type(value).__name__ under the dotted path and recursing
into dict/list values; for a non-empty list it analyzes only the FIRST
element (the source comment says first item as representative); every other
value yields the empty mapping. -/
def analyze_schema (data : PyVal) (path : String) : Schema :=
  match data with
  | .dict kvs => analyzeItems kvs path []
  | .list (x :: _) => mergeSchema [] (analyze_schema x path)
  | _ => []

/-- The for key, value in data.items() loop of analyze_schema, threading the
accumulated schema. -/
def analyzeItems (kvs : List (String × PyVal)) (path : String) (schema : Schema) :
    Schema :=
  match kvs with
  | [] => schema
  | (key, value) :: rest =>
    let current_path := if path = "" then key else path ++ "." ++ key
    let schema1 := addType schema current_path value.typeName
    let schema2 :=
      match value with
      | .dict kvs2 => mergeSchema schema1 (analyze_schema (.dict kvs2) current_path)
      | .list xs2 => mergeSchema schema1 (analyze_schema (.list xs2) current_path)
      | _ => schema1
    analyzeItems rest path schema2

end

/-! ### JSON values stored in DuckDB

main.py loads each raw entity as a JSON document and works on it with
DuckDB's JSON functions.  JSON numbers are modelled as rationals.
-/

inductive Json where
  | null
  | bool (b : Bool)
  | num (q : ℚ)
  | str (s : String)
  | arr (xs : List Json)
  | obj (kvs : List (String × Json))

mutual

/-- Decidable equality on JSON values (the derive handler does not support
this nested inductive). -/
def Json.decEq : (a b : Json) → Decidable (a = b)
  | .null, .null => isTrue rfl
  | .null, .bool _ => isFalse (fun h => Json.noConfusion h)
  | .null, .num _ => isFalse (fun h => Json.noConfusion h)
  | .null, .str _ => isFalse (fun h => Json.noConfusion h)
  | .null, .arr _ => isFalse (fun h => Json.noConfusion h)
  | .null, .obj _ => isFalse (fun h => Json.noConfusion h)
  | .bool _, .null => isFalse (fun h => Json.noConfusion h)
  | .bool a, .bool b => @decidable_of_iff (Json.bool a = Json.bool b) (a = b) (by simp) inferInstance
  | .bool _, .num _ => isFalse (fun h => Json.noConfusion h)
  | .bool _, .str _ => isFalse (fun h => Json.noConfusion h)
  | .bool _, .arr _ => isFalse (fun h => Json.noConfusion h)
  | .bool _, .obj _ => isFalse (fun h => Json.noConfusion h)
  | .num _, .null => isFalse (fun h => Json.noConfusion h)
  | .num _, .bool _ => isFalse (fun h => Json.noConfusion h)
  | .num a, .num b => @decidable_of_iff (Json.num a = Json.num b) (a = b) (by simp) inferInstance
  | .num _, .str _ => isFalse (fun h => Json.noConfusion h)
  | .num _, .arr _ => isFalse (fun h => Json.noConfusion h)
  | .num _, .obj _ => isFalse (fun h => Json.noConfusion h)
  | .str _, .null => isFalse (fun h => Json.noConfusion h)
  | .str _, .bool _ => isFalse (fun h => Json.noConfusion h)
  | .str _, .num _ => isFalse (fun h => Json.noConfusion h)
  | .str a, .str b => @decidable_of_iff (Json.str a = Json.str b) (a = b) (by simp) inferInstance
  | .str _, .arr _ => isFalse (fun h => Json.noConfusion h)
  | .str _, .obj _ => isFalse (fun h => Json.noConfusion h)
  | .arr _, .null => isFalse (fun h => Json.noConfusion h)
  | .arr _, .bool _ => isFalse (fun h => Json.noConfusion h)
  | .arr _, .num _ => isFalse (fun h => Json.noConfusion h)
  | .arr _, .str _ => isFalse (fun h => Json.noConfusion h)
  | .arr xs, .arr ys => @decidable_of_iff (Json.arr xs = Json.arr ys) (xs = ys) (by simp) (Json.decEqList xs ys)
  | .arr _, .obj _ => isFalse (fun h => Json.noConfusion h)
  | .obj _, .null => isFalse (fun h => Json.noConfusion h)
  | .obj _, .bool _ => isFalse (fun h => Json.noConfusion h)
  | .obj _, .num _ => isFalse (fun h => Json.noConfusion h)
  | .obj _, .str _ => isFalse (fun h => Json.noConfusion h)
  | .obj _, .arr _ => isFalse (fun h => Json.noConfusion h)
  | .obj xs, .obj ys => @decidable_of_iff (Json.obj xs = Json.obj ys) (xs = ys) (by simp) (Json.decEqObj xs ys)

def Json.decEqList : (xs ys : List Json) → Decidable (xs = ys)
  | [], [] => isTrue rfl
  | [], _ :: _ => isFalse (fun h => List.noConfusion h)
  | _ :: _, [] => isFalse (fun h => List.noConfusion h)
  | x :: xs, y :: ys =>
    match Json.decEq x y, Json.decEqList xs ys with
    | isTrue h1, isTrue h2 => isTrue (by rw [h1, h2])
    | isFalse h1, _ => isFalse (fun h => h1 (by injection h))
    | _, isFalse h2 => isFalse (fun h => h2 (by injection h))

def Json.decEqObj : (xs ys : List (String × Json)) → Decidable (xs = ys)
  | [], [] => isTrue rfl
  | [], _ :: _ => isFalse (fun h => List.noConfusion h)
  | _ :: _, [] => isFalse (fun h => List.noConfusion h)
  | (k, v) :: xs, (l, w) :: ys =>
    match String.decEq k l, Json.decEq v w, Json.decEqObj xs ys with
    | isTrue h1, isTrue h2, isTrue h3 => isTrue (by rw [h1, h2, h3])
    | isFalse h1, _, _ =>
      isFalse (fun h => by injection h with h4 h5; injection h4 with h6 h7; exact h1 h6)
    | _, isFalse h2, _ =>
      isFalse (fun h => by injection h with h4 h5; injection h4 with h6 h7; exact h2 h7)
    | _, _, isFalse h3 => isFalse (fun h => by injection h with h4 h5; exact h3 h5)

end

instance : DecidableEq Json := Json.decEq

/-- Key lookup in a JSON object (first occurrence wins). -/
def jsonLookup (kvs : List (String × Json)) (k : String) : Option Json :=
  match kvs with
  | [] => Option.none
  | (q, v) :: rest => if q = k then some v else jsonLookup rest k

/-- The raw field of an entity: the stored value at a key, when the entity
is an object (so some Json.null for an explicitly null field, Option.none
for a missing one). -/
def rawField : Json → String → Option Json
  | .obj kvs, k => jsonLookup kvs k
  | _, _ => Option.none

/-- DuckDB JSON_EXTRACT(data, path) for a single-key path.  It yields SQL
NULL when the key is missing or the document is not an object, and also when
the stored value is the JSON null: DuckDB's extraction executor treats a
yyjson null result like a missing value and marks the output row invalid, so
an explicit JSON null extracts to SQL NULL. -/
def json_extract (data : Json) (key : String) : Option Json :=
  match rawField data key with
  | some .null => Option.none
  | v => v

mutual

/-- JSON text of a value, used when DuckDB casts a non-string JSON value to
VARCHAR.  The exact number formatting is schematic (the claims only exercise
string values). -/
def Json.render : Json → String
  | .null => "null"
  | .bool b => cond b "true" "false"
  | .num q => toString q
  | .str s => "\"" ++ s ++ "\""
  | .arr xs => "[" ++ Json.renderList xs ++ "]"
  | .obj kvs => "\x7b" ++ Json.renderObj kvs ++ "\x7d"

def Json.renderList : List Json → String
  | [] => ""
  | [x] => x.render
  | x :: rest => x.render ++ "," ++ Json.renderList rest

def Json.renderObj : List (String × Json) → String
  | [] => ""
  | [(k, v)] => "\"" ++ k ++ "\":" ++ v.render
  | (k, v) :: rest => "\"" ++ k ++ "\":" ++ v.render ++ "," ++ Json.renderObj rest

end

/-- DuckDB cast of one JSON value to VARCHAR, as applied elementwise by
CAST(JSON_EXTRACT(data, chains path) AS VARCHAR[]) and by
JSON_EXTRACT_STRING: JSON strings lose their quotes, any other value keeps
its JSON text. -/
def jsonToVarchar : Json → String
  | .str s => s
  | v => v.render

/-- DuckDB JSON_EXTRACT_STRING(data, path): extract then cast to VARCHAR. -/
def json_extract_string (data : Json) (key : String) : Option String :=
  (json_extract data key).map jsonToVarchar

/-- COALESCE(JSON_EXTRACT(data, path), 0), the default substitution applied
to every numeric metric column of the expanded tables. -/
def coalesce0 (data : Json) (key : String) : Json :=
  (json_extract data key).getD (.num 0)

/-- json_type(JSON_EXTRACT(data, path)) = 'array' (SQL NULL compares false). -/
def jsonTypeIsArr : Option Json → Bool
  | some (.arr _) => true
  | _ => false

/-! ### main.py: the expanded (flattened) tables -/

/-- One row of main.py's protocols_expanded table.  Columns are nullable
JSON values except chain (the unnested element, cast to VARCHAR) and the
COALESCEd numeric columns, which always carry a JSON value. -/
structure ProtocolsExpandedRow where
  name : Option Json
  category : Option Json
  chain : String
  protocol_id : Option Json
  address : Option Json
  symbol : Option Json
  url : Option Json
  description : Option Json
  main_chain : Option Json
  logo : Option Json
  audits : Option Json
  audit_note : Option Json
  gecko_id : Option Json
  cmc_id : Option Json
  module : Option Json
  twitter : Option Json
  forked_from : Option String
  oracles : Option String
  listed_at : Option Json
  methodology : Option Json
  slug : Option Json
  tvl : Json
  change_1h : Json
  change_1d : Json
  change_7d : Json
deriving DecidableEq

/-- The SELECT list of protocols_expanded for one entity and one unnested
chain element. -/
def mkProtocolsRow (data : Json) (chain : String) : ProtocolsExpandedRow :=
  { name := json_extract data "name"
    category := json_extract data "category"
    chain := chain
    protocol_id := json_extract data "id"
    address := json_extract data "address"
    symbol := json_extract data "symbol"
    url := json_extract data "url"
    description := json_extract data "description"
    main_chain := json_extract data "chain"
    logo := json_extract data "logo"
    audits := json_extract data "audits"
    audit_note := json_extract data "audit_note"
    gecko_id := json_extract data "gecko_id"
    cmc_id := json_extract data "cmcId"
    module := json_extract data "module"
    twitter := json_extract data "twitter"
    forked_from := json_extract_string data "forkedFrom"
    oracles := json_extract_string data "oracles"
    listed_at := json_extract data "listedAt"
    methodology := json_extract data "methodology"
    slug := json_extract data "slug"
    tvl := coalesce0 data "tvl"
    change_1h := coalesce0 data "change_1h"
    change_1d := coalesce0 data "change_1d"
    change_7d := coalesce0 data "change_7d" }

/-- The WHERE clause shared by all three expanded tables: name, category and
chains extracted non-NULL, and chains of JSON type array. -/
def expandedFilter (data : Json) : Bool :=
  (json_extract data "name").isSome &&
  (json_extract data "category").isSome &&
  (json_extract data "chains").isSome &&
  jsonTypeIsArr (json_extract data "chains")

/-- The chains array of an entity (empty when absent or not an array). -/
def entityChains (data : Json) : List Json :=
  match json_extract data "chains" with
  | some (.arr xs) => xs
  | _ => []

/-- One entity's contribution to protocols_expanded: the WHERE filter, then
UNNEST(CAST(chains AS VARCHAR[])) yielding one row per chains element with
every other column replicated. -/
def flattenProtocolEntity (data : Json) : List ProtocolsExpandedRow :=
  if expandedFilter data then
    (entityChains data).map (fun c => mkProtocolsRow data (jsonToVarchar c))
  else []

/-- main.py's protocols_expanded table over the raw protocols list. -/
def protocols_expanded (raw : List Json) : List ProtocolsExpandedRow :=
  raw.flatMap flattenProtocolEntity

/-- One row of main.py's fees_expanded table; revenue_expanded has exactly
the same column list with the revenue_ prefix instead of fees_, so both
tables share this shape (columns named here without the prefix). -/
structure MetricExpandedRow where
  name : Option Json
  category : Option Json
  chain : String
  defillama_id : Option Json
  display_name : Option Json
  module : Option Json
  logo : Option Json
  protocol_type : Option Json
  methodology_url : Option Json
  slug : Option Json
  id : Option Json
  total_24h : Json
  total_48h_to_24h : Json
  total_7d : Json
  total_14d_to_7d : Json
  total_60d_to_30d : Json
  total_30d : Json
  total_1y : Json
  total_all_time : Json
  average_1y : Json
  change_30d_over_30d : Json
  breakdown_24h : Option String
  breakdown_30d : Option String
  total_7_days_ago : Json
  total_30_days_ago : Json
  latest_fetch_is_ok : Json
deriving DecidableEq

/-- The SELECT list of fees_expanded / revenue_expanded for one entity and
one unnested chain element. -/
def mkMetricRow (data : Json) (chain : String) : MetricExpandedRow :=
  { name := json_extract data "name"
    category := json_extract data "category"
    chain := chain
    defillama_id := json_extract data "defillamaId"
    display_name := json_extract data "displayName"
    module := json_extract data "module"
    logo := json_extract data "logo"
    protocol_type := json_extract data "protocolType"
    methodology_url := json_extract data "methodologyURL"
    slug := json_extract data "slug"
    id := json_extract data "id"
    total_24h := coalesce0 data "total24h"
    total_48h_to_24h := coalesce0 data "total48hto24h"
    total_7d := coalesce0 data "total7d"
    total_14d_to_7d := coalesce0 data "total14dto7d"
    total_60d_to_30d := coalesce0 data "total60dto30d"
    total_30d := coalesce0 data "total30d"
    total_1y := coalesce0 data "total1y"
    total_all_time := coalesce0 data "totalAllTime"
    average_1y := coalesce0 data "average1y"
    change_30d_over_30d := coalesce0 data "change_30dover30d"
    breakdown_24h := json_extract_string data "breakdown24h"
    breakdown_30d := json_extract_string data "breakdown30d"
    total_7_days_ago := coalesce0 data "total7DaysAgo"
    total_30_days_ago := coalesce0 data "total30DaysAgo"
    latest_fetch_is_ok := coalesce0 data "latestFetchIsOk" }

/-- One entity's contribution to fees_expanded / revenue_expanded. -/
def flattenMetricEntity (data : Json) : List MetricExpandedRow :=
  if expandedFilter data then
    (entityChains data).map (fun c => mkMetricRow data (jsonToVarchar c))
  else []

/-- main.py's fees_expanded table. -/
def fees_expanded (raw : List Json) : List MetricExpandedRow :=
  raw.flatMap flattenMetricEntity

/-- main.py's revenue_expanded table (same definition over the revenue
payload). -/
def revenue_expanded (raw : List Json) : List MetricExpandedRow :=
  raw.flatMap flattenMetricEntity

/-! ### main.py: the inner joins -/

/-- SQL equality on two nullable JSON columns: NULL never compares equal. -/
def sqlEqJson (a b : Option Json) : Bool :=
  match a, b with
  | some x, some y => decide (x = y)
  | _, _ => false

/-- INNER JOIN fees_expanded f ON p.name = f.name AND p.category =
f.category AND p.chain = f.chain, enumerated in input order (one output row
per matching pair, full Cartesian product on duplicate keys). -/
def join_protocols_fees (ps : List ProtocolsExpandedRow)
    (fs : List MetricExpandedRow) :
    List (ProtocolsExpandedRow × MetricExpandedRow) :=
  ps.flatMap fun p =>
    (fs.filter fun f =>
      sqlEqJson p.name f.name && sqlEqJson p.category f.category &&
        decide (p.chain = f.chain)).map fun f => (p, f)

/-- main.py's joined_data: the join above followed by INNER JOIN
revenue_expanded r ON p.name = r.name AND p.category = r.category AND
p.chain = r.chain. -/
def joined_data (ps : List ProtocolsExpandedRow)
    (fs rs : List MetricExpandedRow) :
    List (ProtocolsExpandedRow × MetricExpandedRow × MetricExpandedRow) :=
  (join_protocols_fees ps fs).flatMap fun pf =>
    (rs.filter fun r =>
      sqlEqJson pf.1.name r.name && sqlEqJson pf.1.category r.category &&
        decide (pf.1.chain = r.chain)).map fun r => (pf.1, pf.2, r)

/-- The other pairing: fees joined with revenue first, on the same
composite key taken from the fees row. -/
def join_fees_revenue (fs rs : List MetricExpandedRow) :
    List (MetricExpandedRow × MetricExpandedRow) :=
  fs.flatMap fun f =>
    (rs.filter fun r =>
      sqlEqJson f.name r.name && sqlEqJson f.category r.category &&
        decide (f.chain = r.chain)).map fun r => (f, r)

/-- protocols joined against the fees-revenue join, key taken between the
protocols row and the fees half. -/
def joined_data_alt (ps : List ProtocolsExpandedRow)
    (fs rs : List MetricExpandedRow) :
    List (ProtocolsExpandedRow × MetricExpandedRow × MetricExpandedRow) :=
  ps.flatMap fun p =>
    ((join_fees_revenue fs rs).filter fun fr =>
      sqlEqJson p.name fr.1.name && sqlEqJson p.category fr.1.category &&
        decide (p.chain = fr.1.chain)).map fun fr => (p, fr.1, fr.2)

/-! ### analysis/efficiency.py and analysis/valuation.py

Both scripts re-read the raw payloads with read_json_auto: the protocols
view has one row per protocol (no chain explosion) and the fees / revenue
views unnest the nested protocols list, selecting id, name and the five
timeframe totals.  Columns are nullable (read_json_auto leaves missing
fields as SQL NULL); numerics are rationals.
-/

/-- The timeframe strings interpolated into the queries (the default
timeframes list is ['24h', '7d', '30d', '1y']; the views also expose the
all-time column). -/
inductive Timeframe where
  | t24h
  | t7d
  | t30d
  | t1y
  | tAllTime
deriving DecidableEq, Repr

/-- One row of the fees view (and of the structurally identical revenue
view): unnest.id, unnest.name and the five totals. -/
structure MetricViewRow where
  id : Option String
  name : Option String
  total_24h : Option ℚ
  total_7d : Option ℚ
  total_30d : Option ℚ
  total_1y : Option ℚ
  total_all_time : Option ℚ
deriving DecidableEq, Repr

/-- The column fees_{timeframe} (resp. revenue_{timeframe}) selected by the
f-string in the query. -/
def MetricViewRow.totalOf (r : MetricViewRow) : Timeframe → Option ℚ
  | .t24h => r.total_24h
  | .t7d => r.total_7d
  | .t30d => r.total_30d
  | .t1y => r.total_1y
  | .tAllTime => r.total_all_time

/-- One row of the protocols view (SELECT *), restricted to the columns the
queries touch: id, category, chain, tvl, mcap. -/
structure ProtocolsViewRow where
  id : Option String
  category : Option String
  chain : Option String
  tvl : Option ℚ
  mcap : Option ℚ
deriving DecidableEq, Repr

/-- SQL equality on nullable VARCHAR columns: NULL never compares equal. -/
def sqlEqStr (a b : Option String) : Bool :=
  match a, b with
  | some x, some y => decide (x = y)
  | _, _ => false

/-- SQL comparison column > 0 on a nullable numeric: NULL compares false
(the WHERE clause drops the row, the CASE condition fails). -/
def sqlGtZero : Option ℚ → Bool
  | some x => decide (0 < x)
  | _ => false

/-- SQL division on nullable numerics: NULL operands propagate NULL. -/
def sqlDiv : Option ℚ → Option ℚ → Option ℚ
  | some x, some y => some (x / y)
  | _, _ => Option.none

/-- The ORDER BY ratio DESC comparator: larger ratios first, SQL NULL last
(DuckDB's default null order), ties left in input order by the stable
sort. -/
def ratioDescLe (a b : Option ℚ) : Bool :=
  match a, b with
  | some x, some y => decide (y ≤ x)
  | some _, Option.none => true
  | Option.none, some _ => false
  | Option.none, Option.none => true

/-- FROM fees f INNER JOIN protocols p ON f.id = p.id, enumerated in input
order. -/
def effJoin (fs : List MetricViewRow) (ps : List ProtocolsViewRow) :
    List (MetricViewRow × ProtocolsViewRow) :=
  fs.flatMap fun f =>
    (ps.filter fun p => sqlEqStr f.id p.id).map fun p => (f, p)

/-- The SELECT list of efficiency.py's per-timeframe query. -/
structure EffResult where
  protocol_name : Option String
  category : Option String
  chain : Option String
  tvl : Option ℚ
  fees : Option ℚ
  efficiency_ratio : Option ℚ
deriving DecidableEq, Repr

/-- One joined row turned into the efficiency_data CTE's SELECT list,
including the CASE WHEN p.tvl > 0 THEN fees/tvl ELSE 0 END ratio. -/
def mkEffRow (tf : Timeframe) (fp : MetricViewRow × ProtocolsViewRow) :
    EffResult :=
  { protocol_name := fp.1.name
    category := fp.2.category
    chain := fp.2.chain
    tvl := fp.2.tvl
    fees := fp.1.totalOf tf
    efficiency_ratio :=
      if sqlGtZero fp.2.tvl then sqlDiv (fp.1.totalOf tf) fp.2.tvl
      else some 0 }

/-- One timeframe of analyze_efficiency: the join, WHERE p.tvl > 0, the
CASE ratio, ORDER BY efficiency_ratio DESC (stable merge sort, NULLS last),
LIMIT 5. -/
def efficiencyQuery (fs : List MetricViewRow) (ps : List ProtocolsViewRow)
    (tf : Timeframe) : List EffResult :=
  let eligible := (effJoin fs ps).filter fun fp => sqlGtZero fp.2.tvl
  (((eligible.map (mkEffRow tf)).mergeSort fun a b =>
      ratioDescLe a.efficiency_ratio b.efficiency_ratio).take 5)

/-- The default timeframes argument of both analysis entry points. -/
def defaultTimeframes : List Timeframe := [.t24h, .t7d, .t30d, .t1y]

/-- analysis/efficiency.py's analyze_efficiency: one ranked result set per
timeframe. -/
def analyze_efficiency (fs : List MetricViewRow) (ps : List ProtocolsViewRow)
    (tfs : List Timeframe) : List (Timeframe × List EffResult) :=
  tfs.map fun tf => (tf, efficiencyQuery fs ps tf)

/-- The SELECT list of valuation.py's fees/mcap query. -/
structure FeesMcapResult where
  protocol_name : Option String
  category : Option String
  chain : Option String
  mcap : Option ℚ
  fees : Option ℚ
  fees_mcap_ratio : Option ℚ
deriving DecidableEq, Repr

/-- The SELECT list of valuation.py's revenue/mcap query. -/
structure RevenueMcapResult where
  protocol_name : Option String
  category : Option String
  chain : Option String
  mcap : Option ℚ
  revenue : Option ℚ
  revenue_mcap_ratio : Option ℚ
deriving DecidableEq, Repr

/-- valuation.py's fees/mcap CTE row, with CASE WHEN p.mcap > 0 THEN
fees/mcap ELSE 0 END. -/
def mkFeesMcapRow (tf : Timeframe) (fp : MetricViewRow × ProtocolsViewRow) :
    FeesMcapResult :=
  { protocol_name := fp.1.name
    category := fp.2.category
    chain := fp.2.chain
    mcap := fp.2.mcap
    fees := fp.1.totalOf tf
    fees_mcap_ratio :=
      if sqlGtZero fp.2.mcap then sqlDiv (fp.1.totalOf tf) fp.2.mcap
      else some 0 }

/-- valuation.py's revenue/mcap CTE row. -/
def mkRevenueMcapRow (tf : Timeframe) (rp : MetricViewRow × ProtocolsViewRow) :
    RevenueMcapResult :=
  { protocol_name := rp.1.name
    category := rp.2.category
    chain := rp.2.chain
    mcap := rp.2.mcap
    revenue := rp.1.totalOf tf
    revenue_mcap_ratio :=
      if sqlGtZero rp.2.mcap then sqlDiv (rp.1.totalOf tf) rp.2.mcap
      else some 0 }

/-- One timeframe of valuation.py's fees/mcap ranking: join on id, WHERE
p.mcap > 0, ratio, ORDER BY fees_mcap_ratio DESC, LIMIT 5. -/
def feesMcapQuery (fs : List MetricViewRow) (ps : List ProtocolsViewRow)
    (tf : Timeframe) : List FeesMcapResult :=
  let eligible := (effJoin fs ps).filter fun fp => sqlGtZero fp.2.mcap
  (((eligible.map (mkFeesMcapRow tf)).mergeSort fun a b =>
      ratioDescLe a.fees_mcap_ratio b.fees_mcap_ratio).take 5)

/-- One timeframe of valuation.py's revenue/mcap ranking. -/
def revenueMcapQuery (rs : List MetricViewRow) (ps : List ProtocolsViewRow)
    (tf : Timeframe) : List RevenueMcapResult :=
  let eligible := (effJoin rs ps).filter fun rp => sqlGtZero rp.2.mcap
  (((eligible.map (mkRevenueMcapRow tf)).mergeSort fun a b =>
      ratioDescLe a.revenue_mcap_ratio b.revenue_mcap_ratio).take 5)

/-- analysis/valuation.py's analyze_valuation: the fees/mcap and
revenue/mcap rankings per timeframe, two logically separate sequences. -/
def analyze_valuation (fs rs : List MetricViewRow) (ps : List ProtocolsViewRow)
    (tfs : List Timeframe) :
    List (Timeframe × List FeesMcapResult) ×
      List (Timeframe × List RevenueMcapResult) :=
  (tfs.map fun tf => (tf, feesMcapQuery fs ps tf),
   tfs.map fun tf => (tf, revenueMcapQuery rs ps tf))

/-- Numeric value of a JSON column, as DuckDB casts a JSON scalar into an
arithmetic context (non-numbers are SQL NULL here; the claims only divide
numbers). -/
def jsonNum : Json → Option ℚ
  | .num q => some q
  | _ => Option.none

/-- Modelled from the spec: the section 4.5 rank contract (filter out rows
with non-positive denominator, compute ratio = numerator / denominator,
stable sort descending by ratio, truncate to topK) applied to main.py's
joined table with numerator fees_24h and denominator tvl.  The repository
itself never ranks joined_data: main.py stops at the CSV export and
efficiency.py ranks its own id-joined views, so this ranking step over
JoinedRows exists only in the spec. -/
def rank_joined_fees_tvl
    (rows : List (ProtocolsExpandedRow × MetricExpandedRow)) (topK : ℕ) :
    List ((ProtocolsExpandedRow × MetricExpandedRow) × Option ℚ) :=
  let eligible := rows.filter fun r => sqlGtZero (jsonNum r.1.tvl)
  let withRatio := eligible.map fun r =>
    (r, sqlDiv (jsonNum r.2.total_24h) (jsonNum r.1.tvl))
  (withRatio.mergeSort fun a b => ratioDescLe a.2 b.2).take topK

/-! ### Helper lemmas -/

/-- The descending ratio order is transitive. -/
theorem ratioDescLe_trans {a b c : Option ℚ} (h1 : ratioDescLe a b = true)
    (h2 : ratioDescLe b c = true) : ratioDescLe a c = true := by
  cases a <;> cases b <;> cases c <;>
    simp only [ratioDescLe, decide_eq_true_eq] at * <;> try trivial
  exact le_trans h2 h1

/-- The descending ratio order is total. -/
theorem ratioDescLe_total (a b : Option ℚ) :
    ratioDescLe a b || ratioDescLe b a := by
  cases a <;> cases b <;>
    simp only [ratioDescLe, Bool.or_eq_true, decide_eq_true_eq] <;> try trivial
  exact le_total _ _

/-- mergeSort of a two-element list. -/
theorem mergeSort_pair (le : α → α → Bool) (a b : α) :
    [a, b].mergeSort le = if le a b then [a, b] else [b, a] := by
  rw [List.mergeSort]
  by_cases h : le a b = true <;>
    simp [List.splitInTwo, List.splitAt, List.splitAt.go, List.merge, h]

/-- SQL equality of nullable JSON columns implies real equality (both sides
non-NULL with identical payloads). -/
theorem sqlEqJson_eq {a b : Option Json} (h : sqlEqJson a b = true) : a = b := by
  cases a <;> cases b <;> simp only [sqlEqJson, decide_eq_true_eq] at h <;> simp_all

/-- json_extract never yields the JSON null as a defined value. -/
theorem json_extract_ne_null {j : Json} {k : String} {x : Json}
    (h : json_extract j k = some x) : x ≠ .null := by
  unfold json_extract at h
  rcases hr : rawField j k with _ | v
  · rw [hr] at h; cases h
  · rw [hr] at h
    cases v <;> simp_all <;> rintro rfl <;> simp_all

/-- When the raw field is absent or explicitly null, the COALESCEd column is
the number 0. -/
theorem coalesce0_of_absent_or_null {j : Json} {k : String}
    (h : rawField j k = Option.none ∨ rawField j k = some .null) :
    coalesce0 j k = .num 0 := by
  unfold coalesce0 json_extract
  rcases h with h | h <;> rw [h] <;> rfl

/-- A COALESCEd column is never the JSON null. -/
theorem coalesce0_ne_null (j : Json) (k : String) : coalesce0 j k ≠ .null := by
  unfold coalesce0
  rcases he : json_extract j k with _ | x
  · simp
  · simpa using json_extract_ne_null he

/-! ### Claims about the schema tools -/

mutual

/-- True when a Python value contains no dict anywhere, so no part of it
ever occurs as an object property. -/
def PyVal.dictFree : PyVal → Bool
  | .dict _ => false
  | .list xs => PyVal.dictFreeList xs
  | _ => true

/-- dictFree over the elements of a list. -/
def PyVal.dictFreeList : List PyVal → Bool
  | [] => true
  | x :: xs => x.dictFree && PyVal.dictFreeList xs

end

/-- True for the scalar Python values (everything but dict and list). -/
def PyVal.isScalar : PyVal → Bool
  | .dict _ => false
  | .list _ => false
  | _ => true

/-- analyze_schema yields the empty mapping on any value without dicts. -/
theorem dictFree_analyze : ∀ (v : PyVal), v.dictFree = true →
    ∀ path, analyze_schema v path = []
  | .none, _, _ => rfl
  | .bool _, _, _ => rfl
  | .int _, _, _ => rfl
  | .float _, _, _ => rfl
  | .str _, _, _ => rfl
  | .dict _, h, _ => by simp [PyVal.dictFree] at h
  | .list [], _, _ => rfl
  | .list (x :: xs), h, path => by
    have hx : x.dictFree = true := by
      simp only [PyVal.dictFree, PyVal.dictFreeList, Bool.and_eq_true] at h
      exact h.1
    show mergeSchema [] (analyze_schema x path) = []
    rw [dictFree_analyze x hx path]
    rfl

/-- Scalars contain no dict. -/
theorem isScalar_dictFree (v : PyVal) (h : v.isScalar = true) :
    v.dictFree = true := by
  cases v <;> simp_all [PyVal.isScalar, PyVal.dictFree]

/-- C8: get_schema.py's scalar mapping: strings map to string, ints to
integer, floats to number, None to null.  A boolean input, however, is
caught by the isinstance(data, int) branch placed before the boolean branch
(Python's bool is a subclass of int), so infer(true) and infer(false)
produce the integer descriptor — the dedicated boolean branch of the source
is unreachable. -/
theorem infer_schema_scalar_map :
    (∀ s, infer_schema (.str s) = SchemaDesc.string) ∧
    (∀ n, infer_schema (.int n) = SchemaDesc.integer) ∧
    (∀ q, infer_schema (.float q) = SchemaDesc.number) ∧
    infer_schema .none = SchemaDesc.null ∧
    infer_schema (.bool true) = SchemaDesc.integer ∧
    infer_schema (.bool false) = SchemaDesc.integer :=
  ⟨fun _ => rfl, fun _ => rfl, fun _ => rfl, rfl, rfl, rfl⟩

/-- C7 counterexample: profiling an object whose field a holds an array
whose first element gives b an integer and whose second element gives b a
string records only the integer type name under a.b — the profiler never
observes the second element, so the claimed set holding both type names
does not appear. -/
theorem analyze_schema_not_all_elements :
    ¬ ∃ ts, (analyze_schema
        (.dict [("a", .list [.dict [("b", .int 1)], .dict [("b", .str "x")]])])
        "").lookup "a.b" = some ts ∧ "int" ∈ ts ∧ "str" ∈ ts := by
  rintro ⟨ts, hts, -, hstr⟩
  have h : (analyze_schema
      (.dict [("a", .list [.dict [("b", .int 1)], .dict [("b", .str "x")]])])
      "").lookup "a.b" = some ["int"] := by decide
  rw [h] at hts
  injection hts with h2
  subst h2
  exact absurd hstr (by decide)

/-- C7 (amended): the profiler collects, per dotted path, the set of type
names observed while recursing only into the FIRST element of each array:
list elements beyond the first never influence the result. -/
theorem analyze_schema_first_element_only :
    ∀ (x : PyVal) (xs : List PyVal) (path : String),
      analyze_schema (.list (x :: xs)) path = analyze_schema (.list [x]) path :=
  fun _ _ _ => rfl

/-- C9 counterexample: profiling the example input does not return the
mapping with the type name "integer": the profiler stores Python type
names (type(value).__name__), which is "int" for integers. -/
theorem analyze_schema_example_ne_integer :
    analyze_schema
        (.dict [("a", .list [.dict [("b", .int 1)], .dict [("b", .str "x")]])]) ""
      ≠ [("a", ["list"]), ("a.b", ["integer"])] := by
  decide

/-- C9 (amended): profiling the example input returns exactly the mapping
sending a to the singleton list-tag set and a.b to the singleton set of the
Python integer type name "int" — the second element's string value is not
observed and no other paths appear. -/
theorem analyze_schema_example_eval :
    analyze_schema
        (.dict [("a", .list [.dict [("b", .int 1)], .dict [("b", .str "x")]])]) ""
      = [("a", ["list"]), ("a.b", ["int"])] := by
  decide

/-- C10: the profiler records type names only for values occurring as
object properties: any dict-free value (in particular a top-level scalar,
a top-level array of scalars, and the empty array) profiles to the empty
mapping, and a top-level array is never tagged at a path of its own. -/
theorem analyze_schema_object_property_only :
    (∀ (v : PyVal) (path : String), v.dictFree = true →
      analyze_schema v path = []) ∧
    (∀ (v : PyVal) (path : String), v.isScalar = true →
      analyze_schema v path = []) ∧
    (∀ path : String, analyze_schema (.list []) path = []) ∧
    (∀ (xs : List PyVal) (path : String), (∀ x ∈ xs, x.isScalar = true) →
      analyze_schema (.list xs) path = []) := by
  refine ⟨fun v path h => dictFree_analyze v h path,
    fun v path h => dictFree_analyze v (isScalar_dictFree v h) path,
    fun _ => rfl, fun xs path h => ?_⟩
  cases xs with
  | nil => rfl
  | cons x xs =>
    have hx : analyze_schema x path = [] :=
      dictFree_analyze x (isScalar_dictFree x (h x (by simp))) path
    show mergeSchema [] (analyze_schema x path) = []
    rw [hx]
    rfl

/-- Witness for C10 at a concrete dict-free input. -/
theorem analyze_schema_object_property_only_witness :
    PyVal.dictFree (.list [.int 1, .str "s"]) = true ∧
    analyze_schema (.list [.int 1, .str "s"]) "" = [] :=
  ⟨by decide,
    analyze_schema_object_property_only.1 (.list [.int 1, .str "s"]) "" (by decide)⟩

/-! ### Claims about the flattener (main.py) -/

/-- C5: the flattener's per-entity contract.  An entity whose WHERE filter
fails (null/absent name or category, or a chains field that is not a JSON
array) is skipped entirely; a surviving entity yields exactly one row per
chains element, each row's chain being the VARCHAR cast of a member of the
entity's chains array; an empty chains array yields zero rows. -/
theorem flatten_entity_contract (j : Json) :
    (expandedFilter j = false →
      flattenProtocolEntity j = [] ∧ flattenMetricEntity j = []) ∧
    ((json_extract j "name" = Option.none ∨
        json_extract j "category" = Option.none ∨
        (∀ xs, json_extract j "chains" ≠ some (.arr xs))) →
      flattenProtocolEntity j = [] ∧ flattenMetricEntity j = []) ∧
    (∀ xs, json_extract j "chains" = some (.arr xs) → expandedFilter j = true →
      (flattenProtocolEntity j).length = xs.length ∧
      (flattenMetricEntity j).length = xs.length ∧
      (∀ r ∈ flattenProtocolEntity j, ∃ c ∈ xs, r.chain = jsonToVarchar c) ∧
      (∀ r ∈ flattenMetricEntity j, ∃ c ∈ xs, r.chain = jsonToVarchar c)) ∧
    (json_extract j "chains" = some (.arr []) →
      flattenProtocolEntity j = [] ∧ flattenMetricEntity j = []) := by
  have hchains : ∀ xs, json_extract j "chains" = some (.arr xs) →
      entityChains j = xs := by
    intro xs hx
    unfold entityChains
    rw [hx]
  refine ⟨?_, ?_, ?_, ?_⟩
  · intro h
    constructor <;> simp [flattenProtocolEntity, flattenMetricEntity, h]
  · intro h
    have hf : expandedFilter j = false := by
      unfold expandedFilter
      rcases h with h | h | h
      · simp [h]
      · simp [h]
      · have : jsonTypeIsArr (json_extract j "chains") = false := by
          rcases he : json_extract j "chains" with _ | v
          · rfl
          · cases v <;> simp [jsonTypeIsArr]
            exact h _ he
        simp [this]
    constructor <;> simp [flattenProtocolEntity, flattenMetricEntity, hf]
  · intro xs hx hf
    have hc := hchains xs hx
    refine ⟨?_, ?_, ?_, ?_⟩
    · simp [flattenProtocolEntity, hf, hc]
    · simp [flattenMetricEntity, hf, hc]
    · intro r hr
      simp only [flattenProtocolEntity, hf, if_true, hc, List.mem_map] at hr
      rcases hr with ⟨c, hcm, rfl⟩
      exact ⟨c, hcm, rfl⟩
    · intro r hr
      simp only [flattenMetricEntity, hf, if_true, hc, List.mem_map] at hr
      rcases hr with ⟨c, hcm, rfl⟩
      exact ⟨c, hcm, rfl⟩
  · intro hx
    by_cases hf : expandedFilter j
    · have hc := hchains [] hx
      constructor <;> simp [flattenProtocolEntity, flattenMetricEntity, hf, hc]
    · constructor <;>
        simp [flattenProtocolEntity, flattenMetricEntity,
          Bool.of_not_eq_true hf]

/-- A concrete entity used to exercise the flattener contract. -/
def wEntity : Json := .obj
  [("name", .str "P"), ("category", .str "DEX"),
   ("chains", .arr [.str "eth", .str "bsc"]), ("tvl", .num 5)]

/-- Witness for C5: a concrete surviving entity with two chains yields two
rows, each carrying one of the chain strings. -/
theorem flatten_entity_contract_witness :
    (flattenProtocolEntity wEntity).length = 2 ∧
    ∃ r ∈ flattenProtocolEntity wEntity,
      r.chain = jsonToVarchar (.str "eth") := by
  have h := (flatten_entity_contract wEntity).2.2.1
    [.str "eth", .str "bsc"] (by decide) (by decide)
  refine ⟨h.1, mkProtocolsRow wEntity "eth", ?_, ?_⟩
  · have : flattenProtocolEntity wEntity =
        [mkProtocolsRow wEntity "eth", mkProtocolsRow wEntity "bsc"] := by decide
    rw [this]
    exact List.mem_cons_self _ _
  · rfl

/-- The COALESCE contract of one numeric column: the flattened value is
never the JSON null, and whenever the raw field is absent or explicitly
null the value is the JSON number 0. -/
def coalescedOK (j : Json) (key : String) (v : Json) : Prop :=
  v ≠ .null ∧
    ((rawField j key = Option.none ∨ rawField j key = some .null) →
      v = .num 0)

/-- coalesce0 satisfies the COALESCE contract. -/
theorem coalesce0_ok (j : Json) (k : String) : coalescedOK j k (coalesce0 j k) :=
  ⟨coalesce0_ne_null j k, coalesce0_of_absent_or_null⟩

/-- C6: every numeric metric column of the expanded tables (tvl and the
change columns for protocols; the timeframe totals, averages, change and
freshness columns for fees / revenue) is COALESCEd: absent or explicitly
null raw fields become the number 0, and the flattened numeric columns are
never the JSON null. -/
theorem flatten_numeric_defaults (j : Json) :
    (∀ r ∈ flattenProtocolEntity j,
      coalescedOK j "tvl" r.tvl ∧
      coalescedOK j "change_1h" r.change_1h ∧
      coalescedOK j "change_1d" r.change_1d ∧
      coalescedOK j "change_7d" r.change_7d) ∧
    (∀ r ∈ flattenMetricEntity j,
      coalescedOK j "total24h" r.total_24h ∧
      coalescedOK j "total48hto24h" r.total_48h_to_24h ∧
      coalescedOK j "total7d" r.total_7d ∧
      coalescedOK j "total14dto7d" r.total_14d_to_7d ∧
      coalescedOK j "total60dto30d" r.total_60d_to_30d ∧
      coalescedOK j "total30d" r.total_30d ∧
      coalescedOK j "total1y" r.total_1y ∧
      coalescedOK j "totalAllTime" r.total_all_time ∧
      coalescedOK j "average1y" r.average_1y ∧
      coalescedOK j "change_30dover30d" r.change_30d_over_30d ∧
      coalescedOK j "total7DaysAgo" r.total_7_days_ago ∧
      coalescedOK j "total30DaysAgo" r.total_30_days_ago ∧
      coalescedOK j "latestFetchIsOk" r.latest_fetch_is_ok) := by
  constructor
  · intro r hr
    unfold flattenProtocolEntity at hr
    split at hr
    · rcases List.mem_map.mp hr with ⟨c, -, rfl⟩
      exact ⟨coalesce0_ok .., coalesce0_ok .., coalesce0_ok .., coalesce0_ok ..⟩
    · cases hr
  · intro r hr
    unfold flattenMetricEntity at hr
    split at hr
    · rcases List.mem_map.mp hr with ⟨c, -, rfl⟩
      exact ⟨coalesce0_ok .., coalesce0_ok .., coalesce0_ok .., coalesce0_ok ..,
        coalesce0_ok .., coalesce0_ok .., coalesce0_ok .., coalesce0_ok ..,
        coalesce0_ok .., coalesce0_ok .., coalesce0_ok .., coalesce0_ok ..,
        coalesce0_ok ..⟩
    · cases hr

/-- A concrete fees entity with an explicitly null total24h, an absent
total7d, and a present total30d. -/
def wFeesEntity : Json := .obj
  [("name", .str "F"), ("category", .str "DEX"),
   ("chains", .arr [.str "eth"]), ("total24h", .null), ("total30d", .num 3)]

/-- Witness for C6: on the concrete entity the null total24h and the absent
total7d flatten to 0, and the present total30d is not null. -/
theorem flatten_numeric_defaults_witness :
    mkMetricRow wFeesEntity "eth" ∈ flattenMetricEntity wFeesEntity ∧
    (mkMetricRow wFeesEntity "eth").total_24h = .num 0 ∧
    (mkMetricRow wFeesEntity "eth").total_7d = .num 0 ∧
    (mkMetricRow wFeesEntity "eth").total_30d ≠ .null := by
  have hm : mkMetricRow wFeesEntity "eth" ∈ flattenMetricEntity wFeesEntity := by
    have : flattenMetricEntity wFeesEntity = [mkMetricRow wFeesEntity "eth"] := by
      decide
    rw [this]
    exact List.mem_singleton_self _
  have h := (flatten_numeric_defaults wFeesEntity).2 _ hm
  exact ⟨hm, h.1.2 (Or.inr (by decide)), h.2.2.1.2 (Or.inl (by decide)),
    h.2.2.2.2.2.1.1⟩

/-! ### Claims about the ratio and ranking queries -/

/-- C1: every row emitted by a ranking query has a strictly positive
denominator (tvl for efficiency, mcap for both valuation rankings) under
SQL semantics, and its ratio column equals numerator / denominator — the
CASE fallback that would set ratio to 0 for a non-positive denominator is
never taken, because the WHERE clause removes those rows before the SELECT
list is evaluated. -/
theorem ratio_results_denominator_pos :
    (∀ (fs : List MetricViewRow) (ps : List ProtocolsViewRow) (tf : Timeframe),
      ∀ r ∈ efficiencyQuery fs ps tf,
        sqlGtZero r.tvl = true ∧
        r.efficiency_ratio = sqlDiv r.fees r.tvl) ∧
    (∀ (fs : List MetricViewRow) (ps : List ProtocolsViewRow) (tf : Timeframe),
      ∀ r ∈ feesMcapQuery fs ps tf,
        sqlGtZero r.mcap = true ∧
        r.fees_mcap_ratio = sqlDiv r.fees r.mcap) ∧
    (∀ (rs : List MetricViewRow) (ps : List ProtocolsViewRow) (tf : Timeframe),
      ∀ r ∈ revenueMcapQuery rs ps tf,
        sqlGtZero r.mcap = true ∧
        r.revenue_mcap_ratio = sqlDiv r.revenue r.mcap) := by
  refine ⟨?_, ?_, ?_⟩ <;>
  · intro fs ps tf r hr
    simp only [efficiencyQuery, feesMcapQuery, revenueMcapQuery] at hr
    have h1 := List.mem_mergeSort.mp (List.mem_of_mem_take hr)
    rcases List.mem_map.mp h1 with ⟨fp, hfp, rfl⟩
    have h2 := (List.mem_filter.mp hfp).2
    refine ⟨h2, ?_⟩
    simp only [mkEffRow, mkFeesMcapRow, mkRevenueMcapRow, h2, if_true]

/-- Concrete rows for the ranking witnesses. -/
def wfRow : MetricViewRow :=
  ⟨some "1", some "A", some 10, some 11, some 12, some 13, some 14⟩

/-- A protocol row with positive tvl and mcap joined by the witness. -/
def wpRow : ProtocolsViewRow :=
  ⟨some "1", some "DEX", some "eth", some 100, some 50⟩

/-- A second protocol row with the same id and a different tvl. -/
def wpRow2 : ProtocolsViewRow :=
  ⟨some "1", some "DEX", some "bsc", some 200, some 80⟩

/-- Witness for C1: the three queries on singleton inputs each produce a
row with positive denominator and ratio = numerator / denominator. -/
theorem ratio_results_denominator_pos_witness :
    (sqlGtZero (mkEffRow .t24h (wfRow, wpRow)).tvl = true ∧
      (mkEffRow .t24h (wfRow, wpRow)).efficiency_ratio =
        sqlDiv (mkEffRow .t24h (wfRow, wpRow)).fees
          (mkEffRow .t24h (wfRow, wpRow)).tvl) ∧
    (sqlGtZero (mkFeesMcapRow .t7d (wfRow, wpRow)).mcap = true ∧
      (mkFeesMcapRow .t7d (wfRow, wpRow)).fees_mcap_ratio =
        sqlDiv (mkFeesMcapRow .t7d (wfRow, wpRow)).fees
          (mkFeesMcapRow .t7d (wfRow, wpRow)).mcap) ∧
    (sqlGtZero (mkRevenueMcapRow .t1y (wfRow, wpRow)).mcap = true ∧
      (mkRevenueMcapRow .t1y (wfRow, wpRow)).revenue_mcap_ratio =
        sqlDiv (mkRevenueMcapRow .t1y (wfRow, wpRow)).revenue
          (mkRevenueMcapRow .t1y (wfRow, wpRow)).mcap) := by
  have he : efficiencyQuery [wfRow] [wpRow] .t24h =
      [mkEffRow .t24h (wfRow, wpRow)] := by
    simp [efficiencyQuery, effJoin, wfRow, wpRow, sqlEqStr, sqlGtZero]
  have hf : feesMcapQuery [wfRow] [wpRow] .t7d =
      [mkFeesMcapRow .t7d (wfRow, wpRow)] := by
    simp [feesMcapQuery, effJoin, wfRow, wpRow, sqlEqStr, sqlGtZero]
  have hv : revenueMcapQuery [wfRow] [wpRow] .t1y =
      [mkRevenueMcapRow .t1y (wfRow, wpRow)] := by
    simp [revenueMcapQuery, effJoin, wfRow, wpRow, sqlEqStr, sqlGtZero]
  refine ⟨ratio_results_denominator_pos.1 [wfRow] [wpRow] .t24h _ ?_,
    ratio_results_denominator_pos.2.1 [wfRow] [wpRow] .t7d _ ?_,
    ratio_results_denominator_pos.2.2 [wfRow] [wpRow] .t1y _ ?_⟩
  · rw [he]; exact List.mem_singleton_self _
  · rw [hf]; exact List.mem_singleton_self _
  · rw [hv]; exact List.mem_singleton_self _

/-- The lifted comparator used by the efficiency ORDER BY. -/
theorem effLe_trans (a b c : EffResult)
    (h1 : ratioDescLe a.efficiency_ratio b.efficiency_ratio = true)
    (h2 : ratioDescLe b.efficiency_ratio c.efficiency_ratio = true) :
    ratioDescLe a.efficiency_ratio c.efficiency_ratio = true :=
  ratioDescLe_trans h1 h2

/-- Totality of the lifted comparator. -/
theorem effLe_total (a b : EffResult) :
    ratioDescLe a.efficiency_ratio b.efficiency_ratio ||
      ratioDescLe b.efficiency_ratio a.efficiency_ratio :=
  ratioDescLe_total _ _

/-- C2: the per-timeframe efficiency query performs exactly: filter out
rows with non-positive tvl, compute the ratio, stable-sort descending by
ratio, truncate to the top 5 (the code's fixed topK).  Consequently the
result length is min(5, eligible row count), results are non-increasing in
ratio, the sort is a permutation of the eligible rows, and any pair already
correctly ordered in the input (in particular any tie) keeps its input
order in the sorted sequence. -/
theorem efficiency_rank_steps (fs : List MetricViewRow)
    (ps : List ProtocolsViewRow) (tf : Timeframe) :
    efficiencyQuery fs ps tf =
      ((((effJoin fs ps).filter fun fp => sqlGtZero fp.2.tvl).map
          (mkEffRow tf)).mergeSort fun a b =>
            ratioDescLe a.efficiency_ratio b.efficiency_ratio).take 5 ∧
    (efficiencyQuery fs ps tf).length =
      min 5 ((effJoin fs ps).filter fun fp => sqlGtZero fp.2.tvl).length ∧
    (efficiencyQuery fs ps tf).Pairwise
      (fun a b => ratioDescLe a.efficiency_ratio b.efficiency_ratio = true) ∧
    ((((effJoin fs ps).filter fun fp => sqlGtZero fp.2.tvl).map
        (mkEffRow tf)).mergeSort fun a b =>
          ratioDescLe a.efficiency_ratio b.efficiency_ratio).Perm
      (((effJoin fs ps).filter fun fp => sqlGtZero fp.2.tvl).map
        (mkEffRow tf)) ∧
    (∀ a b,
      List.Sublist [a, b]
        (((effJoin fs ps).filter fun fp => sqlGtZero fp.2.tvl).map
          (mkEffRow tf)) →
      ratioDescLe a.efficiency_ratio b.efficiency_ratio = true →
      List.Sublist [a, b]
        ((((effJoin fs ps).filter fun fp => sqlGtZero fp.2.tvl).map
          (mkEffRow tf)).mergeSort fun a b =>
            ratioDescLe a.efficiency_ratio b.efficiency_ratio)) := by
  refine ⟨rfl, ?_, ?_, List.mergeSort_perm _ _, ?_⟩
  · simp [efficiencyQuery, List.length_take]
  · have hs := List.sorted_mergeSort effLe_trans effLe_total
      (((effJoin fs ps).filter fun fp => sqlGtZero fp.2.tvl).map (mkEffRow tf))
    exact List.Pairwise.sublist (List.take_sublist 5 _) hs
  · intro a b hsub hle
    exact List.pair_sublist_mergeSort effLe_trans effLe_total hle hsub

/-- Witness for C2: on a concrete two-protocol input the length law holds
and a correctly ordered pair of eligible rows stays in input order in the
sorted sequence. -/
theorem efficiency_rank_steps_witness :
    (efficiencyQuery [wfRow] [wpRow, wpRow2] .t24h).length =
      min 5 ((effJoin [wfRow] [wpRow, wpRow2]).filter fun fp =>
        sqlGtZero fp.2.tvl).length ∧
    List.Sublist [mkEffRow .t24h (wfRow, wpRow), mkEffRow .t24h (wfRow, wpRow2)]
      ((((effJoin [wfRow] [wpRow, wpRow2]).filter fun fp =>
          sqlGtZero fp.2.tvl).map (mkEffRow .t24h)).mergeSort fun a b =>
            ratioDescLe a.efficiency_ratio b.efficiency_ratio) := by
  refine ⟨(efficiency_rank_steps [wfRow] [wpRow, wpRow2] .t24h).2.1, ?_⟩
  apply (efficiency_rank_steps [wfRow] [wpRow, wpRow2] .t24h).2.2.2.2
  · have h : ((effJoin [wfRow] [wpRow, wpRow2]).filter fun fp =>
        sqlGtZero fp.2.tvl).map (mkEffRow .t24h) =
        [mkEffRow .t24h (wfRow, wpRow), mkEffRow .t24h (wfRow, wpRow2)] := by
      rfl
    rw [h]
  · norm_num [mkEffRow, wfRow, wpRow, wpRow2, sqlDiv, sqlGtZero, ratioDescLe,
      MetricViewRow.totalOf]

/-! ### Claim about join associativity (main.py) -/

/-- The nested-loop enumeration of protocols joined first with fees and
then with revenue, written as one triple-nested comprehension.  This is the
shape joined_data takes after reassociating its flatMaps. -/
theorem joined_data_eq_nested (ps : List ProtocolsExpandedRow)
    (fs rs : List MetricExpandedRow) :
    joined_data ps fs rs =
      ps.flatMap fun p =>
        (fs.filter fun f =>
          sqlEqJson p.name f.name && sqlEqJson p.category f.category &&
            decide (p.chain = f.chain)).flatMap fun f =>
          (rs.filter fun r =>
            sqlEqJson p.name r.name && sqlEqJson p.category r.category &&
              decide (p.chain = r.chain)).map fun r => (p, f, r) := by
  unfold joined_data join_protocols_fees
  rw [List.flatMap_assoc]
  refine congrArg _ (funext fun p => ?_)
  rw [List.flatMap_map]

/-- For one protocols row, enumerating matching fees rows and then matching
revenue rows equals filtering the fees-revenue join by the protocols row's
key.  The key fact is that a fees row matching the protocols row has
literally the same (name, category, chain), so filtering revenue by either
side's key is the same filter. -/
theorem join3_inner (p : ProtocolsExpandedRow) (fs rs : List MetricExpandedRow) :
    (fs.filter fun f =>
      sqlEqJson p.name f.name && sqlEqJson p.category f.category &&
        decide (p.chain = f.chain)).flatMap
      (fun f =>
        (rs.filter fun r =>
          sqlEqJson p.name r.name && sqlEqJson p.category r.category &&
            decide (p.chain = r.chain)).map fun r => (p, f, r)) =
    ((join_fees_revenue fs rs).filter fun fr =>
      sqlEqJson p.name fr.1.name && sqlEqJson p.category fr.1.category &&
        decide (p.chain = fr.1.chain)).map fun fr => (p, fr.1, fr.2) := by
  induction fs with
  | nil => rfl
  | cons f fs ih =>
    rw [join_fees_revenue] at ih ⊢
    simp only [List.flatMap_cons, List.filter_append, List.filter_map,
      List.map_append, List.map_map]
    by_cases h : (sqlEqJson p.name f.name && sqlEqJson p.category f.category &&
        decide (p.chain = f.chain)) = true
    · have hn : p.name = f.name :=
        sqlEqJson_eq (by simp only [Bool.and_eq_true] at h; exact h.1.1)
      have hcat : p.category = f.category :=
        sqlEqJson_eq (by simp only [Bool.and_eq_true] at h; exact h.1.2)
      have hch : p.chain = f.chain := by
        simp only [Bool.and_eq_true, decide_eq_true_eq] at h; exact h.2
      rw [List.filter_cons, if_pos h, List.flatMap_cons]
      refine congrArg₂ _ ?_ ih
      have hconst : ((fun fr : MetricExpandedRow × MetricExpandedRow =>
          sqlEqJson p.name fr.1.name && sqlEqJson p.category fr.1.category &&
            decide (p.chain = fr.1.chain)) ∘ fun r => (f, r)) =
          fun _ => true := by
        funext r
        simpa [Function.comp] using h
      rw [hconst, List.filter_true, hn, hcat, hch]
      rfl
    · have hconst : ((fun fr : MetricExpandedRow × MetricExpandedRow =>
          sqlEqJson p.name fr.1.name && sqlEqJson p.category fr.1.category &&
            decide (p.chain = fr.1.chain)) ∘ fun r => (f, r)) =
          fun _ => false := by
        funext r
        simpa [Function.comp] using h
      rw [List.filter_cons, if_neg h, hconst, List.filter_false, List.map_nil,
        List.nil_append]
      exact ih

/-- C3: joining the three flattened row-sets on the composite key
(name, category, chain) is associative.  main.py's pairing — protocols
joined with fees first, then revenue — enumerates exactly the same triples,
in the same order, as joining fees with revenue first and then protocols
against that, so the two pairings agree even as ordered row sequences and
in particular as row-sets irrespective of row order. -/
theorem joined_data_assoc (ps : List ProtocolsExpandedRow)
    (fs rs : List MetricExpandedRow) :
    joined_data ps fs rs = joined_data_alt ps fs rs := by
  rw [joined_data_eq_nested]
  unfold joined_data_alt
  exact congrArg _ (funext fun p => join3_inner p fs rs)

/-! ### Claim C4: the concrete flatten + join + rank example -/

/-- The example protocols entity. -/
def pEntity : Json := .obj
  [("id", .num 1), ("name", .str "X"), ("category", .str "DEX"),
   ("chains", .arr [.str "eth", .str "arb"]), ("tvl", .num 100)]

/-- The example fees entity exactly as the claim states it: it has no
category field. -/
def fEntity : Json := .obj
  [("id", .num 1), ("name", .str "X"),
   ("chains", .arr [.str "eth", .str "arb"]), ("total24h", .num 10)]

/-- The example fees entity with the category the join needs. -/
def fEntityCat : Json := .obj
  [("id", .num 1), ("name", .str "X"), ("category", .str "DEX"),
   ("chains", .arr [.str "eth", .str "arb"]), ("total24h", .num 10)]

/-- C4 counterexample: on the claimed input the protocols entity flattens
to two rows, but the fees entity is dropped by the mandatory-field filter
(its category extracts to SQL NULL), so the join yields zero JoinedRows —
not two — and the ranking result is empty rather than two rows of ratio
0.1. -/
theorem flatten_join_example_cex :
    (protocols_expanded [pEntity]).length = 2 ∧
    fees_expanded [fEntity] = [] ∧
    join_protocols_fees (protocols_expanded [pEntity])
      (fees_expanded [fEntity]) = [] ∧
    rank_joined_fees_tvl (join_protocols_fees (protocols_expanded [pEntity])
      (fees_expanded [fEntity])) 5 = [] := by
  have h : join_protocols_fees (protocols_expanded [pEntity])
      (fees_expanded [fEntity]) = [] := by decide
  refine ⟨by decide, by decide, h, ?_⟩
  rw [h]
  simp [rank_joined_fees_tvl]

/-- C4 (amended): with the category field added to the fees entity,
flattening and joining yields exactly two JoinedRows — chain eth and chain
arb — each carrying tvl = 100 and fees_24h = 10, and ranking by
fees_24h / tvl with topK = 5 keeps both rows (no deduplication), each with
ratio 1/10. -/
theorem flatten_join_example_amended :
    join_protocols_fees (protocols_expanded [pEntity])
        (fees_expanded [fEntityCat]) =
      [(mkProtocolsRow pEntity "eth", mkMetricRow fEntityCat "eth"),
       (mkProtocolsRow pEntity "arb", mkMetricRow fEntityCat "arb")] ∧
    (mkProtocolsRow pEntity "eth").tvl = .num 100 ∧
    (mkProtocolsRow pEntity "arb").tvl = .num 100 ∧
    (mkMetricRow fEntityCat "eth").total_24h = .num 10 ∧
    (mkMetricRow fEntityCat "arb").total_24h = .num 10 ∧
    (rank_joined_fees_tvl (join_protocols_fees (protocols_expanded [pEntity])
        (fees_expanded [fEntityCat])) 5).map (fun x => x.2) =
      [some (1 / 10 : ℚ), some (1 / 10 : ℚ)] := by
  have h1 : join_protocols_fees (protocols_expanded [pEntity])
      (fees_expanded [fEntityCat]) =
      [(mkProtocolsRow pEntity "eth", mkMetricRow fEntityCat "eth"),
       (mkProtocolsRow pEntity "arb", mkMetricRow fEntityCat "arb")] := by
    decide
  refine ⟨h1, rfl, rfl, rfl, rfl, ?_⟩
  rw [h1]
  have hfil : ([(mkProtocolsRow pEntity "eth", mkMetricRow fEntityCat "eth"),
      (mkProtocolsRow pEntity "arb", mkMetricRow fEntityCat "arb")].filter
        fun r => sqlGtZero (jsonNum r.1.tvl)) =
      [(mkProtocolsRow pEntity "eth", mkMetricRow fEntityCat "eth"),
       (mkProtocolsRow pEntity "arb", mkMetricRow fEntityCat "arb")] := by
    decide
  have hmap : ([(mkProtocolsRow pEntity "eth", mkMetricRow fEntityCat "eth"),
      (mkProtocolsRow pEntity "arb", mkMetricRow fEntityCat "arb")].map
        fun r => (r, sqlDiv (jsonNum r.2.total_24h) (jsonNum r.1.tvl))) =
      [((mkProtocolsRow pEntity "eth", mkMetricRow fEntityCat "eth"),
          some ((10 : ℚ) / 100)),
       ((mkProtocolsRow pEntity "arb", mkMetricRow fEntityCat "arb"),
          some ((10 : ℚ) / 100))] := by
    rfl
  have hle : ratioDescLe (some ((10 : ℚ) / 100)) (some ((10 : ℚ) / 100)) =
      true := by
    simp [ratioDescLe]
  simp only [rank_joined_fees_tvl]
  rw [hfil, hmap, mergeSort_pair, if_pos hle]
  norm_num
